import Mathlib

/-!
Verification development for the `crystalline` repository
(`src/task2.py`, `src/task_2.py`, `src/task_2_1.py`): learning-based
testing of vending-machine implementations.

The Python sources are shallowly embedded: each mutable object becomes an
explicit state value threaded through the functions that mutate it, each
function that can raise a Python exception returns `Except PyErr`, and a
value that Python would leave as `None` becomes `Option.none`.
-/

/-- Python exception classes that the embedded code can raise. -/
inductive PyErr
  | attributeError
  | typeError
  | valueError
deriving DecidableEq

/-- The coin denominations of the fixed alphabet: 0.5, 1, 2. -/
inductive Coin
  | half
  | one
  | two
deriving DecidableEq

/-- The button labels of the fixed alphabet. -/
inductive Item
  | coke
  | peanuts
  | water
deriving DecidableEq

/-- Numeric value of a coin, in euros (exact, as a rational). -/
def Coin.val : Coin → ℚ
  | .half => 1/2
  | .one => 1
  | .two => 2

/-- Python order string of an item, as passed to `push_button`. -/
def Item.label : Item → String
  | .coke => "coke"
  | .peanuts => "peanuts"
  | .water => "water"

/-- One input symbol of the six-symbol alphabet
`[('add_coin', c) for c in [0.5, 1, 2]] + [('push_button', p) for p in
['coke', 'peanuts', 'water']]` shared by all three source files. -/
inductive Inp
  | add_coin (c : Coin)
  | push_button (p : Item)
deriving DecidableEq

/-- Observable outputs of the dummy vending machine of `task2.py`
(`test_with_dummy_values`).  Each constructor stands for the exact string
the Python code returns: `coin_added c` for `f"coin_added: {coin}"`,
`dispensing o` for `f"Dispensing {order}"`, `insufficient` for
`"Insufficient funds"` and `reset_successful` for `"Reset successful"`. -/
inductive DummyOut
  | coin_added (c : ℚ)
  | dispensing (order : String)
  | insufficient
  | reset_successful
deriving DecidableEq

/-- State of `DummyVendingMachine` (`task2.py` lines 181-198; the
`task_2_1.py` version at lines 77-94 is identical except for the
`add_coin` label text): the single attribute `self.coins`. -/
structure DummyVendingMachine where
  coins : ℚ
deriving DecidableEq

namespace DummyVendingMachine

/-- Embeds `def add_coin(self, coin): self.coins += coin; return f"coin_added: {coin}"`. -/
def add_coin (m : DummyVendingMachine) (coin : ℚ) : DummyOut × DummyVendingMachine :=
  (DummyOut.coin_added coin, ⟨m.coins + coin⟩)

/-- Embeds `def push_button(self, order)`: if `self.coins >= 2` subtract 2 and
dispense, else report insufficient funds. -/
def push_button (m : DummyVendingMachine) (order : String) :
    DummyOut × DummyVendingMachine :=
  if m.coins ≥ 2 then (DummyOut.dispensing order, ⟨m.coins - 2⟩)
  else (DummyOut.insufficient, m)

/-- Embeds `def reset(self): self.coins = 0; return "Reset successful"`. -/
def reset (_ : DummyVendingMachine) : DummyOut × DummyVendingMachine :=
  (DummyOut.reset_successful, ⟨0⟩)

end DummyVendingMachine

/-- Modelled from the spec: the learned hypothesis type (aalpy's
`MealyMachine`, which is not part of this repository) is, per the spec's
data model, "a minimal Mealy machine — finite set of states, a designated
start state, a transition function states×Σ→states, an output function
states×Σ→Output", used through the two-method capability set
`{reset, step}`: `reset` returns the current position to the start state
and `step` emits the output of the current state on the given symbol and
moves along the transition.  The mutable current position is passed
explicitly as a value of the state type `S`. -/
structure MealyMachine (S O : Type) where
  initial_state : S
  transition : S → Inp → S
  output : S → Inp → O

namespace MealyMachine

/-- One `step(inp)` call on a learned model whose current position is `s`:
returns the emitted output and the new position. -/
def stepFrom {S O : Type} (m : MealyMachine S O) (s : S) (i : Inp) : O × S :=
  (m.output s i, m.transition s i)

/-- Replay a whole input sequence from position `s`, collecting the
outputs in order (`[model.step(inp) for inp in sequence]`). -/
def runFrom {S O : Type} (m : MealyMachine S O) (s : S) : List Inp → List O × S
  | [] => ([], s)
  | i :: rest =>
    let (o, s') := m.stepFrom s i
    let (os, s'') := m.runFrom s' rest
    (o :: os, s'')

end MealyMachine

namespace Task2

/-- The method `VendingMachineSUL.pre` of `task2.py` (lines 53-57):
`self.vending_machine.reset()` — the wrapped machine is reset before a
learning session; its reset output is discarded. -/
def sul_pre {VM O : Type} (reset : VM → O × VM) (vm : VM) : VM :=
  (reset vm).2

/-- The method `VendingMachineSUL.post` of `task2.py` (lines 59-62): the wrapped
machine is reset again after the session. -/
def sul_post {VM O : Type} (reset : VM → O × VM) (vm : VM) : VM :=
  (reset vm).2

end Task2

namespace Task21

/-- The method `VendingMachineSUL.pre` of `task_2_1.py` (lines 31-32): the body is
`pass` — no reset, the wrapped machine is left untouched. -/
def sul_pre {VM : Type} (vm : VM) : VM := vm

/-- The method `VendingMachineSUL.post` of `task_2_1.py` (lines 34-35): `pass`. -/
def sul_post {VM : Type} (vm : VM) : VM := vm

end Task21

/-- The method `VendingMachineSUL.step` (`task2.py` lines 69-76 and `task_2_1.py`
lines 40-45, identical up to logging): unpack `(action, value)`, dispatch
on the action string to the wrapped machine's `add_coin` or `push_button`
method (passed here as the functions `ac` and `pb`), and fall through —
returning Python's implicit `None` and leaving the machine untouched —
for any other action.  The value and output types are left abstract, as in the
dynamically typed source. -/
def VendingMachineSUL.step {VM V O : Type} (ac : VM → V → O × VM)
    (pb : VM → V → O × VM) (vm : VM) (action : String) (value : V) :
    Option O × VM :=
  if action = "add_coin" then
    let r := ac vm value
    (some r.1, r.2)
  else if action = "push_button" then
    let r := pb vm value
    (some r.1, r.2)
  else (none, vm)

namespace Task2

/-- The function `learn_models` of `task2.py` (lines 80-110): the body of the `try`
block (running L* and visualizing, abstracted as `run_lstar`) either
yields a learned model or raises; a raise is caught, logged, and the loop
`continue`s with the next machine; a success is appended. -/
def learn_models {M Model E : Type} (run_lstar : M → Except E Model) :
    List M → List Model
  | [] => []
  | m :: rest =>
    match run_lstar m with
    | .ok model => model :: learn_models run_lstar rest
    | .error _ => learn_models run_lstar rest

end Task2

namespace Task21

/-- The function `learn_models` of `task_2_1.py` (lines 48-57): no `try`/`except` — an
exception raised while learning one machine propagates out of the loop at
once, so no list is returned at all. -/
def learn_models {M Model E : Type} (run_lstar : M → Except E Model) :
    List M → Except E (List Model)
  | [] => .ok []
  | m :: rest => do
    let model ← run_lstar m
    let others ← learn_models run_lstar rest
    pure (model :: others)

end Task21

instance {S O : Type} [Inhabited S] [Inhabited O] :
    Inhabited (MealyMachine S O) :=
  ⟨⟨default, fun s _ => s, fun _ _ => default⟩⟩

namespace VendingMachineTester

/-- A divergence record `(sequence, outputs_1, outputs_2)` of
`VendingMachineTester.compare_models` (`task_2.py` line 93). -/
abbrev DiffRec (O : Type) : Type := List Inp × List O × List O

/-- The input list `inputs` built in `generate_input_sequences`
(`task_2.py` line 75), in source order. -/
def inputs : List Inp :=
  [Inp.add_coin Coin.half, Inp.add_coin Coin.one, Inp.add_coin Coin.two,
   Inp.push_button Item.coke, Inp.push_button Item.peanuts,
   Inp.push_button Item.water]

/-- Embeds `itertools.product(inputs, repeat=n)`: all length-`n` sequences over
`inputs`, leftmost position varying slowest. -/
def seqsOfLen : Nat → List (List Inp)
  | 0 => [[]]
  | n + 1 => inputs.flatMap fun i => (seqsOfLen n).map (i :: ·)

/-- The method `VendingMachineTester.generate_input_sequences` (`task_2.py` lines
73-79): for each length from 1 to `max_length` (default 3), extend the
result with `product(inputs, repeat=length)`. -/
def generate_input_sequences (max_length : Nat) : List (List Inp) :=
  (List.range max_length).flatMap fun k => seqsOfLen (k + 1)

/-- Loop body of `VendingMachineTester.compare_models` (`task_2.py` lines
86-93) over the sequence list: for each sequence, `reset()` both models
(current positions return to the start states, discarding the incoming
positions), replay the sequence on both, and record a divergence when the
two output lists differ.  The two threaded values are the models' mutable
current positions. -/
def compare_go {S1 S2 O : Type} [DecidableEq O] (m1 : MealyMachine S1 O)
    (m2 : MealyMachine S2 O) :
    List (List Inp) → S1 → S2 → List (DiffRec O) × S1 × S2
  | [], s1, s2 => ([], s1, s2)
  | seq :: rest, _, _ =>
    let outputs_1 := (m1.runFrom m1.initial_state seq).1
    let outputs_2 := (m2.runFrom m2.initial_state seq).1
    let r := compare_go m1 m2 rest (m1.runFrom m1.initial_state seq).2
      (m2.runFrom m2.initial_state seq).2
    (if outputs_1 ≠ outputs_2 then (seq, outputs_1, outputs_2) :: r.1 else r.1,
     r.2)

/-- The method `VendingMachineTester.compare_models` (`task_2.py` lines 81-95):
compare two learned models, whose current positions on entry are `c1` and
`c2`, over `generate_input_sequences()` (called with its default
`max_length=3`); returns the divergence records and the final positions. -/
def compare_models {S1 S2 O : Type} [DecidableEq O] (m1 : MealyMachine S1 O)
    (m2 : MealyMachine S2 O) (c1 : S1) (c2 : S2) :
    List (DiffRec O) × S1 × S2 :=
  compare_go m1 m2 (generate_input_sequences 3) c1 c2

/-- The index pairs visited by the nested loops of
`run_learning_and_testing` (`task_2.py` lines 102-103):
`for i in range(n): for j in range(i + 1, n)`, in iteration order. -/
def pair_list (n : Nat) : List (Nat × Nat) :=
  (List.range n).flatMap fun i =>
    ((List.range n).filter fun j => i < j).map fun j => (i, j)

/-- The list `self.model_differences[k]` accumulated by
`run_learning_and_testing` (`task_2.py` lines 100-107): every pair `(i,j)`
with `i < j` and `k ∈ {i, j}` contributes, in global pair order, the
divergence records of `compare_models(models[i], models[j])`.  The
comparisons are taken from the models' start states: `compare_go` resets
both models before every sequence, so its records do not depend on the
positions the previous comparisons left behind (theorem
`compare_go_diffs_state_irrelevant` below). -/
def model_differences_for {S O : Type} [DecidableEq O] [Inhabited S]
    [Inhabited O] (models : List (MealyMachine S O)) (k : Nat) :
    List (DiffRec O) :=
  ((pair_list models.length).filter fun p => p.1 = k ∨ p.2 = k).flatMap
    fun p =>
      let a := models.getD p.1 default
      let b := models.getD p.2 default
      (compare_models a b a.initial_state b.initial_state).1

/-- Python's `min(iterable, key=keyFn)`: raises `ValueError` (here
`none`) on an empty iterable, otherwise returns the first element
attaining the minimal key. -/
def python_min_by (keyFn : Nat → Nat) : List Nat → Option Nat
  | [] => none
  | x :: xs =>
    some (xs.foldl (fun best y => if keyFn y < keyFn best then y else best) x)

/-- Embeds `self.correct_model_index = min(self.model_differences, key=lambda k:
len(self.model_differences[k]))` (`task_2.py` line 109): the dict's keys
are `0, …, n-1` in insertion order. -/
def correct_model_index {S O : Type} [DecidableEq O] [Inhabited S]
    [Inhabited O] (models : List (MealyMachine S O)) : Option Nat :=
  python_min_by (fun k => (model_differences_for models k).length)
    (List.range models.length)

end VendingMachineTester

namespace Task2

/-- The `valid_inputs` table of `compare_models` (`task2.py` lines
130-137): each input symbol with the expected output string assumed by
the author.  The learned models' outputs are Python strings, so the
output type here is `String`. -/
def valid_inputs : List (Inp × String) :=
  [(Inp.add_coin Coin.half, "coin_added"),
   (Inp.add_coin Coin.one, "coin_added"),
   (Inp.add_coin Coin.two, "coin_added"),
   (Inp.push_button Item.coke, "Coke"),
   (Inp.push_button Item.peanuts, "Peanuts"),
   (Inp.push_button Item.water, "Water")]

/-- The function `validate_model` (`task2.py` lines 114-120): step the model — without
any reset, from its current position `s` — through the listed inputs and
return `False` at the first output that differs from the expected one,
`True` if all match.  The model's position after the (possibly truncated)
walk is returned alongside. -/
def validate_model {S : Type} (m : MealyMachine S String) :
    List (Inp × String) → S → Bool × S
  | [], s => (true, s)
  | (inp, expected) :: rest, s =>
    let (o, s') := m.stepFrom s inp
    if o ≠ expected then (false, s') else validate_model m rest s'

/-- The function `compare_mealy_machines` (`task2.py` lines 166-175): step both
machines — without any reset, from their current positions — through the
listed inputs and record `(inputs, output_a, output_b)` whenever the two
single-step outputs differ.  The final positions are returned alongside:
the loop advances both machines' state. -/
def compare_mealy_machines {S1 S2 : Type} (a : MealyMachine S1 String)
    (b : MealyMachine S2 String) :
    List (Inp × String) → S1 → S2 →
      List (Inp × String × String) × S1 × S2
  | [], s1, s2 => ([], s1, s2)
  | (inp, _) :: rest, s1, s2 =>
    let oa := (a.stepFrom s1 inp).1
    let ob := (b.stepFrom s2 inp).1
    let r := compare_mealy_machines a b rest (a.stepFrom s1 inp).2
      (b.stepFrom s2 inp).2
    (if oa ≠ ob then (inp, oa, ob) :: r.1 else r.1, r.2)

/-- A fault entry `(i + 1, j + 1, differences)` appended by
`compare_models` (`task2.py` line 149). -/
abbrev Fault : Type := Nat × Nat × List (Inp × String × String)

/-- The nested pair loop of `compare_models` (`task2.py` lines 142-149)
over the index pairs `(i, j)` of `for i, model_a in enumerate(models):
for j, model_b in enumerate(models)`: skip `i = j`, otherwise run
`compare_mealy_machines` on the models' current positions (tracked in the
list `sts`) and append a fault when differences were found. -/
def pairs_loop {S : Type} [Inhabited S]
    (models : List (MealyMachine S String)) :
    List (Nat × Nat) → List S → List Fault → List Fault × List S
  | [], sts, faults => (faults, sts)
  | (i, j) :: rest, sts, faults =>
    if i = j then pairs_loop models rest sts faults
    else
      let a := models.getD i default
      let b := models.getD j default
      let (differences, sa, sb) :=
        compare_mealy_machines a b valid_inputs (sts.getD i a.initial_state)
          (sts.getD j b.initial_state)
      let sts' := (sts.set i sa).set j sb
      let faults' :=
        if differences ≠ [] then faults ++ [(i + 1, j + 1, differences)]
        else faults
      pairs_loop models rest sts' faults'

/-- The validation loop of `compare_models` (`task2.py` lines 153-160):
the first model passing `validate_model` becomes the correct one
(1-based); later valid models only produce a warning. -/
def validate_loop {S : Type} [Inhabited S]
    (models : List (MealyMachine S String)) :
    List Nat → List S → Option Nat → Option Nat
  | [], _, acc => acc
  | idx :: rest, sts, acc =>
    let m := models.getD idx default
    let (ok, s') := validate_model m valid_inputs (sts.getD idx m.initial_state)
    let acc' := if ok ∧ acc = none then some (idx + 1) else acc
    validate_loop models rest (sts.set idx s') acc'

/-- The function `compare_models` of `task2.py` (lines 123-162): run the pairwise
comparison over all ordered pairs, then identify the first model passing
validation; returns `(correct_model, faults)`.  The models start at their
initial positions (they are fresh learned models); the mutable positions
are threaded through both loops. -/
def compare_models {S : Type} [Inhabited S]
    (models : List (MealyMachine S String)) : Option Nat × List Fault :=
  let n := models.length
  let pairs := (List.range n).flatMap fun i =>
    (List.range n).map fun j => (i, j)
  let (faults, sts) :=
    pairs_loop models pairs (models.map (·.initial_state)) []
  let correct := validate_loop models (List.range n) sts none
  (correct, faults)

end Task2

namespace Task21

/-- Modelled from the spec: the method surface of the learned hypothesis
type (aalpy's `MealyMachine`, not part of this repository).  Per the
spec, a hypothesis is used through "the two-method capability set
`{reset, step}`"; no `compare` method is part of it. -/
def hypothesis_methods : List String := ["reset", "step"]

/-- Python attribute lookup on a learned model: a name outside the
hypothesis's method surface raises `AttributeError`. -/
def hypothesis_getattr (name : String) : Except PyErr Unit :=
  if name ∈ hypothesis_methods then .ok () else .error .attributeError

/-- The call `model_a.compare(model_b)` of `compare_models`
(`task_2_1.py` line 67): the attribute lookup of `compare` happens first;
since `compare` is not a hypothesis method it raises, and the `.ok`
branch below (whose result value is irrelevant) is never reached. -/
def model_compare {S O : Type} (_a _b : MealyMachine S O) :
    Except PyErr (List (Inp × O × O)) :=
  match hypothesis_getattr "compare" with
  | .error e => .error e
  | .ok _ => .ok []

/-- A fault entry `(i + 1, j + 1, differences)` of `task_2_1.py`'s
`compare_models` (line 69). -/
abbrev Fault (O : Type) : Type := Nat × Nat × List (Inp × O × O)

/-- Inner loop of `compare_models` (`task_2_1.py` lines 65-70) for a
fixed `i`: over all `j`, skip `i = j`, otherwise call
`model_a.compare(model_b)`; a nonempty difference list records a fault
and clears `is_correct`.  Any raised exception propagates. -/
def inner_loop {S O : Type} [Inhabited S] [Inhabited O]
    (models : List (MealyMachine S O)) (i : Nat) :
    List Nat → Bool → List (Fault O) → Except PyErr (Bool × List (Fault O))
  | [], is_correct, faults => .ok (is_correct, faults)
  | j :: rest, is_correct, faults =>
    if i = j then inner_loop models i rest is_correct faults
    else do
      let differences ← model_compare (models.getD i default)
        (models.getD j default)
      match differences with
      | [] => inner_loop models i rest is_correct faults
      | d :: ds =>
        inner_loop models i rest false (faults ++ [(i + 1, j + 1, d :: ds)])

/-- Outer loop of `compare_models` (`task_2_1.py` lines 63-72): for each
`i`, run the inner loop with `is_correct = True`; if it survives, the
(1-based) index `i + 1` overwrites `correct_model`. -/
def outer_loop {S O : Type} [Inhabited S] [Inhabited O]
    (models : List (MealyMachine S O)) :
    List Nat → Option Nat → List (Fault O) →
      Except PyErr (Option Nat × List (Fault O))
  | [], correct, faults => .ok (correct, faults)
  | i :: rest, correct, faults => do
    let (is_correct, faults') ←
      inner_loop models i (List.range models.length) true faults
    outer_loop models rest (if is_correct then some (i + 1) else correct)
      faults'

/-- The function `compare_models` of `task_2_1.py` (lines 60-73). -/
def compare_models {S O : Type} [Inhabited S] [Inhabited O]
    (models : List (MealyMachine S O)) :
    Except PyErr (Option Nat × List (Fault O)) :=
  outer_loop models (List.range models.length) none []

end Task21


/-! ## Claim C1: session resets in the SUL adapter's `pre` and `post` -/

/-- C1, counterexample.  The claim states that the SUL adapter's `pre`
resets the underlying vending machine before a session and `post` resets
it after; for the `task_2_1.py` adapter (one of the cited code places)
this is false: with the dummy machine holding 3 in its balance, `pre`
and `post` leave it untouched, so the balance stays 3 instead of 0. -/
theorem c1_cex :
    Task21.sul_pre (⟨3⟩ : DummyVendingMachine) = ⟨3⟩ ∧
    Task21.sul_post (⟨3⟩ : DummyVendingMachine) = ⟨3⟩ ∧
    (Task21.sul_pre (⟨3⟩ : DummyVendingMachine)).coins ≠ 0 := by
  refine ⟨rfl, rfl, ?_⟩
  norm_num [Task21.sul_pre]

/-- C1, amended.  The `task2.py` adapter's `pre` and `post` do reset the
wrapped machine (the dummy machine's balance is 0 afterwards, whatever
state it was in), while the `task_2_1.py` adapter's `pre` and `post` are
no-ops that leave the machine exactly as it was. -/
theorem c1_amended (vm : DummyVendingMachine) :
    (Task2.sul_pre DummyVendingMachine.reset vm).coins = 0 ∧
    (Task2.sul_post DummyVendingMachine.reset vm).coins = 0 ∧
    Task21.sul_pre vm = vm ∧ Task21.sul_post vm = vm :=
  ⟨rfl, rfl, rfl, rfl⟩

/-! ## Claim C5: failure isolation in the model-learning loop -/

/-- A concrete learning run for the C5 counterexample: the first machine
(`true`) raises, the second (`false`) learns successfully to the model
`7`. -/
def c5_learn : Bool → Except Unit Nat :=
  fun b => if b then .error () else .ok 7

/-- C5, counterexample.  In `task_2_1.py`'s `learn_models` (one of the
cited code places) an exception during the first machine's session aborts
the whole loop: with machines `[true, false]`, where `false` would learn
successfully, the loop returns the propagated exception and no list at
all — the successful session's model `7` is lost, contradicting the
claim that the loop continues and returns a model per successful
session. -/
theorem c5_cex :
    Task21.learn_models c5_learn [true, false] = .error () ∧
    c5_learn false = .ok 7 := by
  exact ⟨rfl, rfl⟩

/-- C5, amended.  In `task2.py`'s `learn_models` the claim does hold: an
exception is caught for the one failing machine and the loop continues,
returning exactly the successfully learned models, in order (here
expressed as `filterMap` of the per-machine learning outcome).  In
`task_2_1.py`'s `learn_models` (and `task_2.py`'s learning
comprehension) an exception instead propagates and aborts the loop. -/
theorem c5_amended {M Model E : Type} (run_lstar : M → Except E Model)
    (machines : List M) :
    Task2.learn_models run_lstar machines
      = machines.filterMap fun m => (run_lstar m).toOption := by
  induction machines with
  | nil => rfl
  | cons m rest ih =>
    simp only [Task2.learn_models, List.filterMap_cons]
    cases run_lstar m <;> simp [ih, Except.toOption]

/-! ## Claim C7: the dummy machine's balance after a dispense -/

/-- C7, counterexample.  After inserting two 2-coins (balance 4) the
dummy machine dispenses, but the stored balance afterwards is `4 - 2 = 2`,
not 0: `push_button` subtracts the price instead of resetting the
balance. -/
theorem c7_cex :
    ((((DummyVendingMachine.mk 0).add_coin 2).2.add_coin 2).2.push_button
        "coke").1 = DummyOut.dispensing "coke" ∧
    ((((DummyVendingMachine.mk 0).add_coin 2).2.add_coin 2).2.push_button
        "coke").2.coins = 2 ∧
    ((((DummyVendingMachine.mk 0).add_coin 2).2.add_coin 2).2.push_button
        "coke").2.coins ≠ 0 := by
  norm_num [DummyVendingMachine.add_coin, DummyVendingMachine.push_button]

/-- C7, amended.  Pushing a button with accumulated value at least 2
dispenses the ordered item and decrements the balance by the price 2 —
it does not reset it: the balance is 0 afterwards exactly when the
accumulated value was exactly 2. -/
theorem c7_amended (m : DummyVendingMachine) (order : String)
    (h : 2 ≤ m.coins) :
    (m.push_button order).1 = DummyOut.dispensing order ∧
    (m.push_button order).2.coins = m.coins - 2 ∧
    ((m.push_button order).2.coins = 0 ↔ m.coins = 2) := by
  have hp : m.push_button order
      = (DummyOut.dispensing order, ⟨m.coins - 2⟩) := by
    simp only [DummyVendingMachine.push_button, ge_iff_le, if_pos h]
  rw [hp]
  exact ⟨rfl, rfl, sub_eq_zero⟩

/-- C7, witness for the amended theorem at balance 3: the machine
dispenses and is left with balance 1 ≠ 0. -/
theorem c7_witness :
    ((DummyVendingMachine.mk 3).push_button "water").1
        = DummyOut.dispensing "water" ∧
    ((DummyVendingMachine.mk 3).push_button "water").2.coins = 3 - 2 ∧
    (((DummyVendingMachine.mk 3).push_button "water").2.coins = 0 ↔
      (3 : ℚ) = 2) :=
  c7_amended ⟨3⟩ "water" (by norm_num)

/-! ## Claim C9: the SUL adapter's `step` on an unknown action -/

/-- C9: for any action string other than `"add_coin"` and
`"push_button"`, `VendingMachineSUL.step` falls through both branches and
returns Python's implicit `None` with the wrapped machine unchanged.  The
machine's methods `ac` and `pb` are universally quantified and do not
occur in the result, so no method of the machine is invoked, and since
they are the only possible sources of an exception in `step`, none can be
raised. -/
theorem c9_step_noop {VM V O : Type} (ac : VM → V → O × VM)
    (pb : VM → V → O × VM) (vm : VM) (action : String) (value : V)
    (h1 : action ≠ "add_coin") (h2 : action ≠ "push_button") :
    VendingMachineSUL.step ac pb vm action value = (none, vm) := by
  simp [VendingMachineSUL.step, h1, h2]

/-- C9, witness: a `"noop"` action on a dummy machine with balance 5
yields `(none, unchanged machine)`. -/
theorem c9_witness :
    VendingMachineSUL.step DummyVendingMachine.add_coin
        (fun m (_ : ℚ) => m.push_button "coke") ⟨5⟩ "noop" (1 : ℚ)
      = (none, (⟨5⟩ : DummyVendingMachine)) :=
  c9_step_noop _ _ _ _ _ (by decide) (by decide)

/-! ## Claims C3 and C4: differencer idempotence and symmetry -/

/-- The divergence records produced by `compare_go` do not depend on the
models' incoming current positions: both models are reset before every
sequence.  (This also justifies taking the pipeline's comparisons from
the start states in `model_differences_for`.) -/
theorem compare_go_diffs_state_irrelevant {S1 S2 O : Type} [DecidableEq O]
    (m1 : MealyMachine S1 O) (m2 : MealyMachine S2 O)
    (seqs : List (List Inp)) (c1 c1' : S1) (c2 c2' : S2) :
    (VendingMachineTester.compare_go m1 m2 seqs c1 c2).1
      = (VendingMachineTester.compare_go m1 m2 seqs c1' c2').1 := by
  cases seqs with
  | nil => rfl
  | cons s rest => rfl

/-- C3, amended.  `task_2.py`'s `compare_models` resets both models
before every sequence, so running it a second time on the same two
models — from whatever positions the first run left them in — produces
exactly the same divergence records.  `task2.py`'s
`compare_mealy_machines`, by contrast, never resets, and a repeated run
can produce different records (see the counterexample). -/
theorem c3_amended {S1 S2 O : Type} [DecidableEq O] (m1 : MealyMachine S1 O)
    (m2 : MealyMachine S2 O) (c1 : S1) (c2 : S2) :
    (VendingMachineTester.compare_models m1 m2
        (VendingMachineTester.compare_models m1 m2 c1 c2).2.1
        (VendingMachineTester.compare_models m1 m2 c1 c2).2.2).1
      = (VendingMachineTester.compare_models m1 m2 c1 c2).1 :=
  compare_go_diffs_state_irrelevant m1 m2 _ _ c1 _ c2

/-- A two-state machine for the C3 counterexample: after any first input
it moves (and stays) in a state whose outputs differ from the initial
state's. -/
def mealyA : MealyMachine Bool String :=
  ⟨false, fun _ _ => true, fun s _ => if s then "y" else "x"⟩

/-- A one-state machine for the C3 counterexample: constant output. -/
def mealyB : MealyMachine Bool String :=
  ⟨false, fun s _ => s, fun _ _ => "x"⟩

/-- C3, counterexample.  `task2.py`'s `compare_mealy_machines` (a cited
code place of the claim) does not reset the models: run once from the
models' initial positions it records 5 divergences, run again from the
positions the first run left behind it records 6, so the repeated
comparison does not produce identical divergence records. -/
theorem c3_cex :
    (Task2.compare_mealy_machines mealyA mealyB Task2.valid_inputs
        (Task2.compare_mealy_machines mealyA mealyB Task2.valid_inputs
          false false).2.1
        (Task2.compare_mealy_machines mealyA mealyB Task2.valid_inputs
          false false).2.2).1
      ≠ (Task2.compare_mealy_machines mealyA mealyB Task2.valid_inputs
          false false).1 := by
  decide

/-- Swapping the two arguments of `compare_go` yields the same records
with the two output vectors exchanged. -/
theorem compare_go_swap {S1 S2 O : Type} [DecidableEq O]
    (m1 : MealyMachine S1 O) (m2 : MealyMachine S2 O)
    (seqs : List (List Inp)) (c1 : S1) (c2 : S2) :
    (VendingMachineTester.compare_go m2 m1 seqs c2 c1).1
      = ((VendingMachineTester.compare_go m1 m2 seqs c1 c2).1).map
          fun d => (d.1, d.2.2, d.2.1) := by
  induction seqs generalizing c1 c2 with
  | nil => rfl
  | cons s rest ih =>
    simp only [VendingMachineTester.compare_go]
    by_cases h : (m1.runFrom m1.initial_state s).1
        = (m2.runFrom m2.initial_state s).1
    · rw [if_neg (by simp [h]), if_neg (by simp [h])]
      exact ih _ _
    · rw [if_pos (Ne.symm h), if_pos h]
      simp only [List.map_cons]
      exact congrArg _ (ih _ _)

/-- Swapping the two arguments of `compare_mealy_machines` (from the same
pair of current positions) yields the same records with the two recorded
outputs exchanged. -/
theorem compare_mealy_machines_swap {S1 S2 : Type}
    (a : MealyMachine S1 String) (b : MealyMachine S2 String)
    (vi : List (Inp × String)) (s1 : S1) (s2 : S2) :
    (Task2.compare_mealy_machines b a vi s2 s1).1
      = ((Task2.compare_mealy_machines a b vi s1 s2).1).map
          fun d => (d.1, d.2.2, d.2.1) := by
  induction vi generalizing s1 s2 with
  | nil => rfl
  | cons p rest ih =>
    obtain ⟨inp, expected⟩ := p
    simp only [Task2.compare_mealy_machines]
    by_cases h : (a.stepFrom s1 inp).1 = (b.stepFrom s2 inp).1
    · rw [if_neg (by simp [h]), if_neg (by simp [h])]
      exact ih _ _
    · rw [if_pos (Ne.symm h), if_pos h]
      simp only [List.map_cons]
      exact congrArg _ (ih _ _)

/-- C4: differencing A against B and B against A yields records for
exactly the same input sequences with the two output vectors swapped —
for `task_2.py`'s `compare_models` (first conjunct, from any pair of
incoming positions) and for `task2.py`'s `compare_mealy_machines`
(second conjunct, from a common pair of current positions). -/
theorem c4_symmetry {S1 S2 O : Type} [DecidableEq O]
    (m1 : MealyMachine S1 O) (m2 : MealyMachine S2 O) (c1 : S1) (c2 : S2)
    (a : MealyMachine S1 String) (b : MealyMachine S2 String)
    (vi : List (Inp × String)) (s1 : S1) (s2 : S2) :
    ((VendingMachineTester.compare_models m2 m1 c2 c1).1
      = ((VendingMachineTester.compare_models m1 m2 c1 c2).1).map
          fun d => (d.1, d.2.2, d.2.1)) ∧
    ((Task2.compare_mealy_machines b a vi s2 s1).1
      = ((Task2.compare_mealy_machines a b vi s1 s2).1).map
          fun d => (d.1, d.2.2, d.2.1)) :=
  ⟨compare_go_swap m1 m2 _ c1 c2, compare_mealy_machines_swap a b vi s1 s2⟩

/-! ## Claim C8: exhaustive sequence enumeration and divergence recording -/

/-- Enumerating `product(inputs, repeat=n)` yields `6 ^ n` sequences. -/
theorem seqsOfLen_length (n : Nat) :
    (VendingMachineTester.seqsOfLen n).length = 6 ^ n := by
  induction n with
  | zero => rfl
  | succ n ih =>
    simp only [VendingMachineTester.seqsOfLen, List.length_flatMap,
      List.length_map, VendingMachineTester.inputs, List.map_cons,
      List.map_nil, List.sum_cons, List.sum_nil, Function.comp, ih]
    ring

/-- C8 part (a) helper: `generate_input_sequences L` has
`6^1 + 6^2 + … + 6^L` elements. -/
theorem generate_input_sequences_length (L : Nat) :
    (VendingMachineTester.generate_input_sequences L).length
      = ∑ k ∈ Finset.Icc 1 L, 6 ^ k := by
  induction L with
  | zero => rfl
  | succ L ih =>
    rw [VendingMachineTester.generate_input_sequences, List.range_succ,
      List.flatMap_append, List.length_append]
    rw [VendingMachineTester.generate_input_sequences] at ih
    rw [ih]
    simp only [List.flatMap_cons, List.flatMap_nil, List.append_nil,
      seqsOfLen_length]
    rw [Finset.sum_Icc_succ_top (by omega : 1 ≤ L + 1)]

/-- Every symbol of the six-symbol alphabet occurs in `inputs`. -/
theorem mem_inputs (i : Inp) : i ∈ VendingMachineTester.inputs := by
  cases i with
  | add_coin c => cases c <;> simp [VendingMachineTester.inputs]
  | push_button p => cases p <;> simp [VendingMachineTester.inputs]

/-- The sequences of `product(inputs, repeat=n)` are exactly those of
length `n`. -/
theorem mem_seqsOfLen (n : Nat) (seq : List Inp) :
    seq ∈ VendingMachineTester.seqsOfLen n ↔ seq.length = n := by
  induction n generalizing seq with
  | zero =>
    simp [VendingMachineTester.seqsOfLen, List.length_eq_zero, eq_comm]
  | succ n ih =>
    simp only [VendingMachineTester.seqsOfLen, List.mem_flatMap,
      List.mem_map]
    constructor
    · rintro ⟨i, _, s, hs, rfl⟩
      simp [ih _ |>.mp hs]
    · intro h
      cases seq with
      | nil => simp at h
      | cons a as =>
        exact ⟨a, mem_inputs a, as, (ih as).mpr (by simpa using h), rfl⟩

/-- C8 part (b) helper: a sequence is enumerated by
`generate_input_sequences L` exactly when its length lies between 1 and
`L` (its symbols are drawn from the alphabet by construction). -/
theorem mem_generate_input_sequences (L : Nat) (seq : List Inp) :
    seq ∈ VendingMachineTester.generate_input_sequences L ↔
      1 ≤ seq.length ∧ seq.length ≤ L := by
  simp only [VendingMachineTester.generate_input_sequences,
    List.mem_flatMap, List.mem_range, mem_seqsOfLen]
  constructor
  · rintro ⟨k, hk, hlen⟩
    omega
  · rintro ⟨h1, h2⟩
    exact ⟨seq.length - 1, by omega, by omega⟩

/-- C8 part (c) helper: `(seq, o1, o2)` is recorded by `compare_go`
exactly when `seq` is one of the candidate sequences and `o1`, `o2` are
the two models' output vectors for `seq` replayed from reset, and these
differ. -/
theorem compare_go_mem {S1 S2 O : Type} [DecidableEq O]
    (m1 : MealyMachine S1 O) (m2 : MealyMachine S2 O)
    (seqs : List (List Inp)) (c1 : S1) (c2 : S2) (seq : List Inp)
    (o1 o2 : List O) :
    (seq, o1, o2) ∈ (VendingMachineTester.compare_go m1 m2 seqs c1 c2).1 ↔
      seq ∈ seqs ∧ o1 = (m1.runFrom m1.initial_state seq).1 ∧
      o2 = (m2.runFrom m2.initial_state seq).1 ∧ o1 ≠ o2 := by
  induction seqs generalizing c1 c2 with
  | nil => simp [VendingMachineTester.compare_go]
  | cons s rest ih =>
    simp only [VendingMachineTester.compare_go]
    by_cases h : (m1.runFrom m1.initial_state s).1
        ≠ (m2.runFrom m2.initial_state s).1
    · rw [if_pos h]
      simp only [List.mem_cons, ih, Prod.mk.injEq]
      constructor
      · rintro (⟨rfl, rfl, rfl⟩ | ⟨hs, h1, h2, hne⟩)
        · exact ⟨Or.inl rfl, rfl, rfl, h⟩
        · exact ⟨Or.inr hs, h1, h2, hne⟩
      · rintro ⟨rfl | hs, h1, h2, hne⟩
        · exact Or.inl ⟨rfl, h1, h2⟩
        · exact Or.inr ⟨hs, h1, h2, hne⟩
    · rw [if_neg h]
      push_neg at h
      simp only [ih, List.mem_cons]
      constructor
      · rintro ⟨hs, h1, h2, hne⟩
        exact ⟨Or.inr hs, h1, h2, hne⟩
      · rintro ⟨rfl | hs, h1, h2, hne⟩
        · exact absurd (h1.trans (h.trans h2.symm)) hne
        · exact ⟨hs, h1, h2, hne⟩

/-- C8: for any maximum length `L`, `generate_input_sequences` enumerates
every sequence over the six-symbol alphabet of each length 1 through `L`
(`∑ 6^k` of them), and `compare_models` — which uses the default
`max_length = 3` — records a divergence for exactly those enumerated
sequences whose two replayed-from-reset output vectors differ. -/
theorem c8_enumeration_and_divergences {S1 S2 O : Type} [DecidableEq O]
    (L : Nat) (m1 : MealyMachine S1 O) (m2 : MealyMachine S2 O) (c1 : S1)
    (c2 : S2) :
    ((VendingMachineTester.generate_input_sequences L).length
        = ∑ k ∈ Finset.Icc 1 L, 6 ^ k) ∧
    (∀ seq : List Inp,
        seq ∈ VendingMachineTester.generate_input_sequences L ↔
          1 ≤ seq.length ∧ seq.length ≤ L ∧
            ∀ i ∈ seq, i ∈ VendingMachineTester.inputs) ∧
    (∀ (seq : List Inp) (o1 o2 : List O),
        (seq, o1, o2) ∈ (VendingMachineTester.compare_models m1 m2 c1 c2).1
          ↔ seq ∈ VendingMachineTester.generate_input_sequences 3 ∧
            o1 = (m1.runFrom m1.initial_state seq).1 ∧
            o2 = (m2.runFrom m2.initial_state seq).1 ∧ o1 ≠ o2) := by
  refine ⟨generate_input_sequences_length L, ?_, ?_⟩
  · intro seq
    rw [mem_generate_input_sequences]
    constructor
    · rintro ⟨h1, h2⟩
      exact ⟨h1, h2, fun i _ => mem_inputs i⟩
    · rintro ⟨h1, h2, _⟩
      exact ⟨h1, h2⟩
  · intro seq o1 o2
    exact compare_go_mem m1 m2 _ c1 c2 seq o1 o2

/-! ## Claim C2: selection of the most likely correct model -/

/-- Python's tie behavior of `min`: the fold underlying `python_min_by`
returns an element of the scanned values whose key is minimal. -/
theorem foldl_min_spec (f : Nat → Nat) (xs : List Nat) (x : Nat) :
    (xs.foldl (fun best y => if f y < f best then y else best) x = x ∨
      xs.foldl (fun best y => if f y < f best then y else best) x ∈ xs) ∧
    f (xs.foldl (fun best y => if f y < f best then y else best) x) ≤ f x ∧
    ∀ y ∈ xs,
      f (xs.foldl (fun best y => if f y < f best then y else best) x) ≤ f y := by
  induction xs generalizing x with
  | nil => simp
  | cons y ys ih =>
    simp only [List.foldl_cons]
    by_cases h : f y < f x
    · rw [if_pos h]
      obtain ⟨hmem, hle, hall⟩ := ih y
      refine ⟨?_, le_trans hle (le_of_lt h), ?_⟩
      · rcases hmem with h' | h'
        · exact Or.inr (by rw [h']; exact List.mem_cons_self _ _)
        · exact Or.inr (List.mem_cons_of_mem _ h')
      · intro z hz
        rcases List.mem_cons.mp hz with rfl | hz'
        · exact hle
        · exact hall z hz'
    · rw [if_neg h]
      obtain ⟨hmem, hle, hall⟩ := ih x
      refine ⟨?_, hle, ?_⟩
      · rcases hmem with h' | h'
        · exact Or.inl h'
        · exact Or.inr (List.mem_cons_of_mem _ h')
      · intro z hz
        rcases List.mem_cons.mp hz with rfl | hz'
        · exact le_trans hle (le_of_not_lt h)
        · exact hall z hz'

/-- C2, amended.  `run_learning_and_testing` does report an index whose
total divergence count is minimal among all models — but when two or more
models tie for that minimum it still returns a single index (the first
one in key order, by Python `min`'s tie behavior), with no ambiguity
report (see the counterexample). -/
theorem c2_amended {S O : Type} [DecidableEq O] [Inhabited S] [Inhabited O]
    (models : List (MealyMachine S O)) (h : models ≠ []) :
    ∃ k, VendingMachineTester.correct_model_index models = some k ∧
      k < models.length ∧
      ∀ j < models.length,
        (VendingMachineTester.model_differences_for models k).length ≤
          (VendingMachineTester.model_differences_for models j).length := by
  have hlen : models.length ≠ 0 := by
    simpa [List.length_eq_zero] using h
  obtain ⟨n, hn⟩ := Nat.exists_eq_succ_of_ne_zero hlen
  have hrange : List.range models.length
      = 0 :: (List.range n).map Nat.succ := by
    rw [hn, List.range_succ_eq_map]
  obtain ⟨hmem, hle, hall⟩ := foldl_min_spec
    (fun k => (VendingMachineTester.model_differences_for models k).length)
    ((List.range n).map Nat.succ) 0
  set b := ((List.range n).map Nat.succ).foldl
    (fun best y =>
      if (VendingMachineTester.model_differences_for models y).length <
          (VendingMachineTester.model_differences_for models best).length
      then y else best) 0 with hb
  refine ⟨b, ?_, ?_, ?_⟩
  · rw [VendingMachineTester.correct_model_index, hrange, hb]
    rfl
  · rcases hmem with h' | h'
    · rw [h', hn]
      exact Nat.succ_pos n
    · have hm : b ∈ List.range models.length := by
        rw [hrange]
        exact List.mem_cons_of_mem _ h'
      exact List.mem_range.mp hm
  · intro j hj
    have hjr : j ∈ List.range models.length := List.mem_range.mpr hj
    rw [hrange] at hjr
    rcases List.mem_cons.mp hjr with rfl | h'
    · exact hle
    · exact hall _ h'

/-- A one-state model with constant output, for concrete instances. -/
def constModel : MealyMachine Unit Bool :=
  ⟨(), fun _ _ => (), fun _ _ => true⟩

/-- Comparing a model against an identical copy records no divergence:
both runs from reset produce the same output vector for every
sequence. -/
theorem compare_go_self_nil {S O : Type} [DecidableEq O]
    (m : MealyMachine S O) (seqs : List (List Inp)) (c1 c2 : S) :
    (VendingMachineTester.compare_go m m seqs c1 c2).1 = [] := by
  induction seqs generalizing c1 c2 with
  | nil => rfl
  | cons s rest ih =>
    simp only [VendingMachineTester.compare_go]
    rw [if_neg (by simp)]
    exact ih _ _

/-- C2, counterexample.  With two identical learned models both have zero
total divergences — a tie for the minimum — yet the pipeline reports the
single index `0` (Python `min` silently keeps the first key), not an
ambiguity: its result type has no ambiguous outcome at all, refuting the
claim that ties are reported as ambiguous rather than silently
resolved. -/
theorem c2_cex :
    VendingMachineTester.model_differences_for [constModel, constModel] 0
        = [] ∧
    VendingMachineTester.model_differences_for [constModel, constModel] 1
        = [] ∧
    VendingMachineTester.correct_model_index [constModel, constModel]
        = some 0 := by
  have hp : VendingMachineTester.pair_list 2 = [(0, 1)] := rfl
  have h0 : VendingMachineTester.model_differences_for
      [constModel, constModel] 0 = [] := by
    simp [VendingMachineTester.model_differences_for, hp,
      VendingMachineTester.compare_models, compare_go_self_nil]
  have h1 : VendingMachineTester.model_differences_for
      [constModel, constModel] 1 = [] := by
    simp [VendingMachineTester.model_differences_for, hp,
      VendingMachineTester.compare_models, compare_go_self_nil]
  refine ⟨h0, h1, ?_⟩
  rw [VendingMachineTester.correct_model_index]
  have hr : List.range
      ([constModel, constModel] : List (MealyMachine Unit Bool)).length
      = [0, 1] := rfl
  rw [hr]
  simp [VendingMachineTester.python_min_by, h0, h1]

/-- C2, witness for the amended theorem at the two-model tie instance. -/
theorem c2_witness :
    ∃ k, VendingMachineTester.correct_model_index [constModel, constModel]
        = some k ∧
      k < ([constModel, constModel] : List (MealyMachine Unit Bool)).length ∧
      ∀ j < ([constModel, constModel] :
          List (MealyMachine Unit Bool)).length,
        (VendingMachineTester.model_differences_for [constModel, constModel]
            k).length ≤
          (VendingMachineTester.model_differences_for [constModel, constModel]
            j).length :=
  c2_amended [constModel, constModel] (List.cons_ne_nil _ _)

/-! ## Claim C6: fewer than two learned models -/

/-- C6, counterexample.  With zero learned models, `task_2.py`'s
selection `min(self.model_differences, key=…)` runs over an empty dict:
Python's `min` raises `ValueError` on an empty sequence, modelled here as
`none` — the phase does not complete with an explicit result, refuting
the claim for the zero-model case. -/
theorem c6_cex :
    VendingMachineTester.correct_model_index
        ([] : List (MealyMachine Unit Bool)) = none := rfl

/-- C6, amended.  `task2.py`'s `compare_models` does treat zero or one
models as a degenerate no-op with an explicit result (no faults, and a
correct model only if the single model validates); `task_2.py`'s
selection handles one model (reporting index 0) but raises `ValueError`
(modelled as `none`) when zero models are available. -/
theorem c6_amended {S O : Type} [DecidableEq O] [Inhabited S]
    [Inhabited O] :
    (Task2.compare_models ([] : List (MealyMachine S String)) = (none, []))
    ∧ (∀ m : MealyMachine S String,
        Task2.compare_models [m]
          = (if (Task2.validate_model m Task2.valid_inputs
                m.initial_state).1 then some 1 else none, []))
    ∧ (∀ m : MealyMachine S O,
        VendingMachineTester.correct_model_index [m] = some 0)
    ∧ (VendingMachineTester.correct_model_index
        ([] : List (MealyMachine S O)) = none) := by
  refine ⟨rfl, ?_, fun m => rfl, rfl⟩
  intro m
  have hpairs : Task2.compare_models [m]
      = (Task2.validate_loop [m] [0] [m.initial_state] none, []) := rfl
  rw [hpairs]
  cases hv : (Task2.validate_model m Task2.valid_inputs m.initial_state).1
  · simp [Task2.validate_loop, hv]
  · simp [Task2.validate_loop, hv]

/-! ## Claim C10: `task_2_1.py`'s comparison calls a missing method -/

/-- Binding an already-raised exception propagates it. -/
theorem except_bind_error {E A B : Type} (e : E) (f : A → Except E B) :
    (Except.error e >>= f : Except E B) = Except.error e := rfl

/-- C10: for any list of two or more learned models, `task_2_1.py`'s
`compare_models` reaches the pair `(0, 1)` and evaluates
`model_a.compare(model_b)`; the hypothesis interface has no `compare`
method, so the attribute lookup raises `AttributeError` and the whole
comparison returns that exception — no correct-model verdict and no
fault list are ever produced. -/
theorem c10_attribute_error {S O : Type} [Inhabited S] [Inhabited O]
    (models : List (MealyMachine S O)) (h : 2 ≤ models.length) :
    Task21.compare_models models = .error PyErr.attributeError := by
  obtain ⟨n, hn⟩ : ∃ n, models.length = n + 2 :=
    ⟨models.length - 2, by omega⟩
  have hrange : List.range models.length
      = 0 :: 1 :: ((List.range n).map Nat.succ).map Nat.succ := by
    rw [hn, List.range_succ_eq_map, List.range_succ_eq_map, List.map_cons]
  have hcmp : Task21.model_compare (models.getD 0 default)
      (models.getD 1 default) = .error PyErr.attributeError := rfl
  rw [Task21.compare_models, hrange]
  rw [Task21.outer_loop, hrange]
  rw [Task21.inner_loop, if_pos rfl]
  rw [Task21.inner_loop, if_neg (by omega)]
  rw [hcmp, except_bind_error, except_bind_error]

/-- C10, witness: with two (identical one-state) learned models the
comparison raises `AttributeError`. -/
theorem c10_witness :
    Task21.compare_models [constModel, constModel]
      = .error PyErr.attributeError :=
  c10_attribute_error [constModel, constModel] (by simp)
